import Mathlib

/-!
Formal model of the image resize service (src/image_resize_service.py and its
storage layer): the size calculator, the serve / resize orchestration and the
variant store contract, together with theorems about their behaviour.

Python integers are modelled as ℤ, Python float division as exact rational
division over ℚ (the spec describes the scale computation as real-valued
division), and `int(x)` applied to a float as truncation toward zero.
Exceptions are modelled with `Except` over an error type listing the
exceptions the service can raise.
-/

set_option autoImplicit false
set_option linter.unusedVariables false

namespace ImageResize

/-- Errors raised by the service code. `notFound` is werkzeug's NotFound,
`zeroDivisionError`, `ioError` and `keyError` are the Python exceptions of the
same names, and `immutable` stands for the IOError raised when writing to a
read-only file handle (the Immutable error of the storage contract). -/
inductive PyErr where
  | notFound
  | zeroDivisionError
  | ioError
  | keyError
  | immutable
  deriving DecidableEq

/-- Truncation toward zero of a rational: the semantics of Python `int(x)`
applied to a float. -/
def truncToZero (q : ℚ) : ℤ :=
  if 0 ≤ q then ⌊q⌋ else ⌈q⌉

/-- The scale factor of _calc_size: `min(max_width / float(width),
max_height / float(height))`, with float division modelled as exact rational
division. Only meaningful when both image dimensions are nonzero. -/
def pyScale (target_size image_size : ℤ × ℤ) : ℚ :=
  min ((target_size.1 : ℚ) / (image_size.1 : ℚ))
      ((target_size.2 : ℚ) / (image_size.2 : ℚ))

/-- Embedding of _calc_size from src/image_resize_service.py. `target_size`
is the bounding box `(max_width, max_height)`, `image_size` the PIL image's
`(width, height)`. When the bounding box already contains the image the size
is returned unchanged; otherwise the code divides by both image dimensions
(raising ZeroDivisionError when one is zero) and returns
`(int(width * scale), int(height * scale))`. -/
def calc_size (target_size image_size : ℤ × ℤ) : Except PyErr (ℤ × ℤ) :=
  if target_size.1 ≥ image_size.1 ∧ target_size.2 ≥ image_size.2 then
    Except.ok image_size
  else if image_size.1 = 0 ∨ image_size.2 = 0 then
    Except.error PyErr.zeroDivisionError
  else
    Except.ok
      (truncToZero ((image_size.1 : ℚ) * pyScale target_size image_size),
       truncToZero ((image_size.2 : ℚ) * pyScale target_size image_size))

/-- Stated from the words of the spec for the scaling branch of `fit`:
`scale = min(maxW / w, maxH / h)` using real-valued division, then
`outW = floor(scale * w)` and `outH = floor(scale * h)`. Used to compare the
code against the specified formula. -/
def fit_spec_scaled (target_size image_size : ℤ × ℤ) : ℤ × ℤ :=
  (⌊min ((target_size.1 : ℚ) / (image_size.1 : ℚ))
        ((target_size.2 : ℚ) / (image_size.2 : ℚ)) * (image_size.1 : ℚ)⌋,
   ⌊min ((target_size.1 : ℚ) / (image_size.1 : ℚ))
        ((target_size.2 : ℚ) / (image_size.2 : ℚ)) * (image_size.2 : ℚ)⌋)

theorem truncToZero_intCast (n : ℤ) : truncToZero (n : ℚ) = n := by
  unfold truncToZero
  split <;> simp

theorem truncToZero_eq_of_nonneg {q : ℚ} {n : ℤ} (h0 : 0 ≤ q)
    (h1 : (n : ℚ) ≤ q) (h2 : q < n + 1) : truncToZero q = n := by
  unfold truncToZero
  rw [if_pos h0]
  exact Int.floor_eq_iff.mpr ⟨h1, h2⟩

theorem truncToZero_eq_of_neg {q : ℚ} {n : ℤ} (h0 : q < 0)
    (h1 : (n : ℚ) - 1 < q) (h2 : q ≤ n) : truncToZero q = n := by
  unfold truncToZero
  rw [if_neg (not_le.mpr h0)]
  exact Int.ceil_eq_iff.mpr ⟨h1, h2⟩

/-- Evaluation helper for the scaling branch of _calc_size on concrete
inputs: once the scale and the two truncations are computed, the whole call
is determined. -/
theorem calc_size_eval_scaled (maxW maxH w h outW outH : ℤ) (s : ℚ)
    (hbr : ¬(maxW ≥ w ∧ maxH ≥ h)) (hw : w ≠ 0) (hh : h ≠ 0)
    (hs : pyScale (maxW, maxH) (w, h) = s)
    (h1 : truncToZero ((w : ℚ) * s) = outW)
    (h2 : truncToZero ((h : ℚ) * s) = outH) :
    calc_size (maxW, maxH) (w, h) = Except.ok (outW, outH) := by
  unfold calc_size
  rw [if_neg hbr, if_neg (by push_neg; exact ⟨hw, hh⟩)]
  rw [hs, h1, h2]

theorem truncToZero_eq_floor {q : ℚ} (h : 0 ≤ q) : truncToZero q = ⌊q⌋ := by
  unfold truncToZero
  exact if_pos h

theorem truncToZero_le_of_le {q : ℚ} {n : ℤ} (h : q ≤ (n : ℚ)) :
    truncToZero q ≤ n := by
  unfold truncToZero
  split
  · calc ⌊q⌋ ≤ ⌊(n : ℚ)⌋ := Int.floor_le_floor h
    _ = n := Int.floor_intCast n
  · exact Int.ceil_le.mpr h

theorem abs_truncToZero_sub_lt (q : ℚ) : |(truncToZero q : ℚ) - q| < 1 := by
  unfold truncToZero
  split
  · rw [abs_sub_lt_iff]
    constructor
    · have := Int.floor_le q
      linarith
    · have := Int.sub_one_lt_floor q
      linarith
  · rw [abs_sub_lt_iff]
    constructor
    · have := Int.ceil_lt_add_one q
      linarith
    · have := Int.le_ceil q
      linarith

/-- C3: for a strictly positive source size already inside the bounding box,
_calc_size returns the source size unchanged — it never upscales. -/
theorem calc_size_no_upscale (maxW maxH w h : ℤ) (hw : 0 < w) (hh : 0 < h)
    (hW : maxW ≥ w) (hH : maxH ≥ h) :
    calc_size (maxW, maxH) (w, h) = Except.ok (w, h) := by
  unfold calc_size
  rw [if_pos]
  exact ⟨hW, hH⟩

/-- Witness for calc_size_no_upscale: the 200×100 source inside the box
(300, 300) is returned unchanged. -/
theorem calc_size_no_upscale_witness :
    calc_size (300, 300) (200, 100) = Except.ok (200, 100) :=
  calc_size_no_upscale 300 300 200 100 (by decide) (by decide) (by decide)
    (by decide)

/-- C2 counterexample: for the bounding box (-1, 10) and the strictly positive
source 2×1, the code truncates toward zero and returns (-1, 0), while the
floor formula of the spec gives (-1, -1). -/
theorem calc_size_floor_spec_cex :
    ¬((-1 : ℤ) ≥ 2 ∧ (10 : ℤ) ≥ 1) ∧ (0 : ℤ) < 2 ∧ (0 : ℤ) < 1 ∧
    calc_size (-1, 10) (2, 1) = Except.ok (-1, 0) ∧
    fit_spec_scaled (-1, 10) (2, 1) = (-1, -1) := by
  refine ⟨by decide, by decide, by decide, ?_, ?_⟩
  · exact calc_size_eval_scaled (-1) 10 2 1 (-1) 0 (-1 / 2)
      (by decide) (by decide) (by decide)
      (by unfold pyScale; rw [min_eq_left (by norm_num)]; norm_num)
      (truncToZero_eq_of_neg (by norm_num) (by norm_num) (by norm_num))
      (truncToZero_eq_of_neg (by norm_num) (by norm_num) (by norm_num))
  · unfold fit_spec_scaled
    rw [min_eq_left (by norm_num), Prod.mk.injEq]
    constructor
    · rw [Int.floor_eq_iff]
      norm_num
    · rw [Int.floor_eq_iff]
      norm_num

/-- C2 (amended): for strictly positive source dimensions, a nonnegative
bounding box that does not contain the source, _calc_size returns exactly the
floor formula of the spec: Python int() truncation coincides with floor there
because the scale is nonnegative. (For a negative bounding box the code
truncates toward zero, which differs from floor.) -/
theorem calc_size_floor_spec_of_nonneg_box (maxW maxH w h : ℤ)
    (hw : 0 < w) (hh : 0 < h) (hW : 0 ≤ maxW) (hH : 0 ≤ maxH)
    (hbr : ¬(maxW ≥ w ∧ maxH ≥ h)) :
    calc_size (maxW, maxH) (w, h) =
      Except.ok (fit_spec_scaled (maxW, maxH) (w, h)) := by
  have hwQ : (0 : ℚ) < (w : ℚ) := by exact_mod_cast hw
  have hhQ : (0 : ℚ) < (h : ℚ) := by exact_mod_cast hh
  have hs0 : 0 ≤ min ((maxW : ℚ) / (w : ℚ)) ((maxH : ℚ) / (h : ℚ)) :=
    le_min (div_nonneg (by exact_mod_cast hW) hwQ.le)
      (div_nonneg (by exact_mod_cast hH) hhQ.le)
  have hz : ¬(w = 0 ∨ h = 0) := by
    push_neg
    exact ⟨hw.ne', hh.ne'⟩
  unfold calc_size fit_spec_scaled pyScale
  rw [if_neg hbr, if_neg hz]
  rw [truncToZero_eq_floor (mul_nonneg hwQ.le hs0),
      truncToZero_eq_floor (mul_nonneg hhQ.le hs0),
      mul_comm ((w : ℚ)), mul_comm ((h : ℚ))]

/-- Witness for calc_size_floor_spec_of_nonneg_box at the box (100, 100) and
source 200×400. -/
theorem calc_size_floor_spec_witness :
    calc_size (100, 100) (200, 400) =
      Except.ok (fit_spec_scaled (100, 100) (200, 400)) :=
  calc_size_floor_spec_of_nonneg_box 100 100 200 400 (by decide) (by decide)
    (by decide) (by decide) (by decide)

/-- C4: in the scaling branch with strictly positive source dimensions, both
output dimensions fit the bounding box, at least one output dimension is
exactly tight to it, and the aspect ratio is preserved within rounding: the
cross products outW * h and outH * w differ by less than w + h. -/
theorem calc_size_fit_bounds (maxW maxH w h : ℤ) (hw : 0 < w) (hh : 0 < h)
    (hbr : ¬(maxW ≥ w ∧ maxH ≥ h)) :
    ∃ outW outH,
      calc_size (maxW, maxH) (w, h) = Except.ok (outW, outH) ∧
      outW ≤ maxW ∧ outH ≤ maxH ∧ (outW = maxW ∨ outH = maxH) ∧
      |outW * h - outH * w| < w + h := by
  have hwQ : (0 : ℚ) < (w : ℚ) := by exact_mod_cast hw
  have hhQ : (0 : ℚ) < (h : ℚ) := by exact_mod_cast hh
  have hz : ¬(w = 0 ∨ h = 0) := by
    push_neg
    exact ⟨hw.ne', hh.ne'⟩
  have hcalc : calc_size (maxW, maxH) (w, h) =
      Except.ok (truncToZero ((w : ℚ) * pyScale (maxW, maxH) (w, h)),
        truncToZero ((h : ℚ) * pyScale (maxW, maxH) (w, h))) := by
    unfold calc_size
    rw [if_neg hbr, if_neg hz]
  have hsW : pyScale (maxW, maxH) (w, h) ≤ (maxW : ℚ) / (w : ℚ) :=
    min_le_left _ _
  have hsH : pyScale (maxW, maxH) (w, h) ≤ (maxH : ℚ) / (h : ℚ) :=
    min_le_right _ _
  have hwc : (w : ℚ) * ((maxW : ℚ) / (w : ℚ)) = ((maxW : ℤ) : ℚ) := by
    field_simp
  have hhc : (h : ℚ) * ((maxH : ℚ) / (h : ℚ)) = ((maxH : ℤ) : ℚ) := by
    field_simp
  refine ⟨_, _, hcalc, ?_, ?_, ?_, ?_⟩
  · refine truncToZero_le_of_le ?_
    calc (w : ℚ) * pyScale (maxW, maxH) (w, h)
        ≤ (w : ℚ) * ((maxW : ℚ) / (w : ℚ)) :=
          mul_le_mul_of_nonneg_left hsW hwQ.le
      _ = ((maxW : ℤ) : ℚ) := hwc
  · refine truncToZero_le_of_le ?_
    calc (h : ℚ) * pyScale (maxW, maxH) (w, h)
        ≤ (h : ℚ) * ((maxH : ℚ) / (h : ℚ)) :=
          mul_le_mul_of_nonneg_left hsH hhQ.le
      _ = ((maxH : ℤ) : ℚ) := hhc
  · rcases le_total ((maxW : ℚ) / (w : ℚ)) ((maxH : ℚ) / (h : ℚ)) with hm | hm
    · left
      have hps : pyScale (maxW, maxH) (w, h) = (maxW : ℚ) / (w : ℚ) :=
        min_eq_left hm
      rw [hps, hwc, truncToZero_intCast]
    · right
      have hps : pyScale (maxW, maxH) (w, h) = (maxH : ℚ) / (h : ℚ) :=
        min_eq_right hm
      rw [hps, hhc, truncToZero_intCast]
  · have d1 := abs_truncToZero_sub_lt ((w : ℚ) * pyScale (maxW, maxH) (w, h))
    have d2 := abs_truncToZero_sub_lt ((h : ℚ) * pyScale (maxW, maxH) (w, h))
    rw [← @Int.cast_lt ℚ]
    push_cast
    set s : ℚ := pyScale (maxW, maxH) (w, h) with hsdef
    set x : ℚ := ((truncToZero ((w : ℚ) * s) : ℤ) : ℚ) with hxdef
    set y : ℚ := ((truncToZero ((h : ℚ) * s) : ℤ) : ℚ) with hydef
    have hkey : x * (h : ℚ) - y * (w : ℚ) =
        (x - (w : ℚ) * s) * (h : ℚ) - (y - (h : ℚ) * s) * (w : ℚ) := by
      ring
    rw [hkey]
    have tri := abs_sub ((x - (w : ℚ) * s) * (h : ℚ)) ((y - (h : ℚ) * s) * (w : ℚ))
    rw [abs_mul, abs_mul, abs_of_pos hhQ, abs_of_pos hwQ] at tri
    have l1 : |x - (w : ℚ) * s| * (h : ℚ) < 1 * (h : ℚ) :=
      mul_lt_mul_of_pos_right d1 hhQ
    have l2 : |y - (h : ℚ) * s| * (w : ℚ) < 1 * (w : ℚ) :=
      mul_lt_mul_of_pos_right d2 hwQ
    linarith

/-- Witness for calc_size_fit_bounds at the box (100, 100) and the 200×400
source of the worked example in the spec. -/
theorem calc_size_fit_bounds_witness :
    ∃ outW outH,
      calc_size (100, 100) (200, 400) = Except.ok (outW, outH) ∧
      outW ≤ 100 ∧ outH ≤ 100 ∧ (outW = 100 ∨ outH = 100) ∧
      |outW * 400 - outH * 200| < 200 + 400 :=
  calc_size_fit_bounds 100 100 200 400 (by decide) (by decide) (by decide)

/-- C5 counterexample: the degenerate 0×5 source inside the box (10, 10) does
not fail at all — _calc_size returns the size unchanged instead of raising
InvalidSource. -/
theorem calc_size_degenerate_cex :
    calc_size (10, 10) (0, 5) = Except.ok (0, 5) := by
  simp [calc_size]

/-- C5 (amended): _calc_size performs no degenerate-input validation and never
raises an InvalidSource error. With w ≤ 0 or h ≤ 0 it returns the size
unchanged when the bounding box contains it; in the scaling branch it raises
ZeroDivisionError when a dimension is exactly zero, and otherwise still
returns a result. -/
theorem calc_size_degenerate (maxW maxH w h : ℤ) (hdeg : w ≤ 0 ∨ h ≤ 0) :
    (maxW ≥ w ∧ maxH ≥ h → calc_size (maxW, maxH) (w, h) = Except.ok (w, h)) ∧
    (¬(maxW ≥ w ∧ maxH ≥ h) → (w = 0 ∨ h = 0) →
      calc_size (maxW, maxH) (w, h) = Except.error PyErr.zeroDivisionError) ∧
    (¬(maxW ≥ w ∧ maxH ≥ h) → ¬(w = 0 ∨ h = 0) →
      ∃ r, calc_size (maxW, maxH) (w, h) = Except.ok r) := by
  refine ⟨fun hc => ?_, fun hbr hzero => ?_, fun hbr hzero => ?_⟩
  · unfold calc_size
    rw [if_pos hc]
  · unfold calc_size
    rw [if_neg hbr, if_pos hzero]
  · refine ⟨(truncToZero ((w : ℚ) * pyScale (maxW, maxH) (w, h)),
      truncToZero ((h : ℚ) * pyScale (maxW, maxH) (w, h))), ?_⟩
    unfold calc_size
    rw [if_neg hbr, if_neg hzero]

/-- Witness for calc_size_degenerate: a zero-width source reaching the scaling
branch raises ZeroDivisionError, not InvalidSource. -/
theorem calc_size_degenerate_witness :
    calc_size (-1, 10) (0, 5) = Except.error PyErr.zeroDivisionError :=
  (calc_size_degenerate (-1) 10 0 5 (Or.inl le_rfl)).2.1 (by decide)
    (Or.inl rfl)

/-- C10: the strictly positive 1000×1 source scaled into the box (100, 100)
yields (100, 0): a valid request over a non-degenerate original can produce a
zero-height variant. -/
theorem calc_size_zero_dimension :
    (0 : ℤ) < 1000 ∧ (0 : ℤ) < 1 ∧
    calc_size (100, 100) (1000, 1) = Except.ok (100, 0) := by
  refine ⟨by decide, by decide, ?_⟩
  refine calc_size_eval_scaled 100 100 1000 1 100 0 (1 / 10)
    (by decide) (by decide) (by decide) ?_ ?_ ?_
  · unfold pyScale
    rw [min_eq_left (by norm_num)]
    norm_num
  · exact truncToZero_eq_of_nonneg (by norm_num) (by norm_num) (by norm_num)
  · exact truncToZero_eq_of_nonneg (by norm_num) (by norm_num) (by norm_num)

/-! ## Storage and orchestration model -/

/-- Raw bytes of an encoded image. -/
abbrev Bytes := List Int

/-- The identity of a stored artifact: (project, name, extension, size),
where size = none denotes the original. This mirrors the argument lists of
ImageStorage.exists / save / get in src/storage/image_storage.py. -/
structure StorageKey where
  project : String
  name : String
  extension : String
  size : Option String
  deriving DecidableEq

/-- Modelled from the spec: the VariantStore state. The concrete
FileImageStorage backend is not under src (only the abstract ImageStorage
interface and its tests are), so the spec contract — exists / read / write of
bytes by key, write creating or entirely replacing the artifact — is modelled
as an association list in which the newest binding of a key shadows all older
ones. -/
abbrev Store := List (StorageKey × Bytes)

/-- Lookup of the newest binding of a key. -/
def store_lookup : Store → StorageKey → Option Bytes
  | [], _ => none
  | (k2, d) :: rest, k => if k = k2 then some d else store_lookup rest k

/-- Modelled from the spec: `exists(key)` — never fails, absence is false. -/
def store_exists (st : Store) (k : StorageKey) : Bool :=
  (store_lookup st k).isSome

/-- Modelled from the spec: `write(key, data)` creates the artifact or
replaces it entirely; the new binding shadows every older one. -/
def store_save (st : Store) (k : StorageKey) (d : Bytes) : Store :=
  (k, d) :: st

/-- Modelled from the spec and FSStorageTestCase: `read(key)` returns the
stored bytes and fails with NotFound when the key has no artifact. -/
def store_get (st : Store) (k : StorageKey) : Except PyErr Bytes :=
  match store_lookup st k with
  | some d => Except.ok d
  | none => Except.error PyErr.notFound

theorem store_lookup_save_self (st : Store) (k : StorageKey) (d : Bytes) :
    store_lookup (store_save st k d) k = some d := by
  unfold store_save store_lookup
  rw [if_pos rfl]

/-- An opaque decoded bitmap with known pixel dimensions: the codec's Image
type (PIL in the source). -/
structure DecodedImage where
  width : ℤ
  height : ℤ
  payload : ℕ
  deriving DecidableEq

/-- The opaque codec capability the orchestrator calls through a narrow
interface: decode bytes (possibly failing), resize, and JPEG-encode. -/
structure Codec where
  decode : Bytes → Option DecodedImage
  resizeTo : DecodedImage → ℤ × ℤ → DecodedImage
  encode : DecodedImage → Bytes

/-- Per-project configuration: the named sizes and their bounding boxes
(app.config PROJECTS entries, field dimensions). -/
structure ProjectConfig where
  dimensions : List (String × (ℤ × ℤ))
  deriving DecidableEq

/-- The PROJECTS configuration: project identifier to project configuration. -/
abbrev Config := List (String × ProjectConfig)

/-- Association–list lookup used for the configuration dictionaries. -/
def alist_lookup {β : Type} : List (String × β) → String → Option β
  | [], _ => none
  | (a2, b) :: rest, a => if a = a2 then some b else alist_lookup rest a

/-- Observable operations of a serve call: the VariantStore operations
(exists / read / write) and the codec invocations (decode / resize /
encode). -/
inductive Op where
  | existsCheck (k : StorageKey)
  | readAt (k : StorageKey)
  | writeAt (k : StorageKey)
  | codecDecode
  | codecResize
  | codecEncode
  deriving DecidableEq

/-- True exactly on codec invocations. -/
def Op.isCodec : Op → Bool
  | Op.codecDecode => true
  | Op.codecResize => true
  | Op.codecEncode => true
  | _ => false

/-- True exactly on VariantStore operations. -/
def Op.isStore : Op → Bool
  | Op.existsCheck _ => true
  | Op.readAt _ => true
  | Op.writeAt _ => true
  | _ => false

/-- Embedding of _resize_image from src/image_resize_service.py: check that
the original exists (NotFound otherwise), read and decode it (IOError on an
unrecognized format), look up the bounding box for the requested size
(KeyError when absent — unreachable from _serve_image), compute the target
size with _calc_size, resize, store the JPEG encoding under the size key via
save_image, and return a fresh JPEG encoding of the resized image. The result
comes with the updated store and the trace of storage and codec operations. -/
def resize_image (cfg : Config) (cdc : Codec) (st : Store)
    (project name extension : String) (size : Option String) :
    Except PyErr Bytes × Store × List Op :=
  let korig : StorageKey := ⟨project, name, extension, none⟩
  if store_exists st korig then
    match store_get st korig with
    | Except.error e =>
      (Except.error e, st, [Op.existsCheck korig, Op.readAt korig])
    | Except.ok obytes =>
      match cdc.decode obytes with
      | none =>
        (Except.error PyErr.ioError, st,
         [Op.existsCheck korig, Op.readAt korig, Op.codecDecode])
      | some im =>
        match size with
        | none =>
          (Except.error PyErr.keyError, st,
           [Op.existsCheck korig, Op.readAt korig, Op.codecDecode])
        | some s =>
          match alist_lookup cfg project with
          | none =>
            (Except.error PyErr.keyError, st,
             [Op.existsCheck korig, Op.readAt korig, Op.codecDecode])
          | some pc =>
            match alist_lookup pc.dimensions s with
            | none =>
              (Except.error PyErr.keyError, st,
               [Op.existsCheck korig, Op.readAt korig, Op.codecDecode])
            | some box =>
              match calc_size box (im.width, im.height) with
              | Except.error e =>
                (Except.error e, st,
                 [Op.existsCheck korig, Op.readAt korig, Op.codecDecode])
              | Except.ok newSize =>
                let im2 := cdc.resizeTo im newSize
                let k : StorageKey := ⟨project, name, extension, size⟩
                (Except.ok (cdc.encode im2),
                 store_save st k (cdc.encode im2),
                 [Op.existsCheck korig, Op.readAt korig, Op.codecDecode,
                  Op.codecResize, Op.codecEncode, Op.writeAt k,
                  Op.codecEncode])
  else
    (Except.error PyErr.notFound, st, [Op.existsCheck korig])

/-- The validity test at the top of _serve_image: the project must be
configured and, when a size is requested, that size must be configured for
the project. (The Python guard tests the truthiness of size; the route
patterns only produce size = None or a nonempty size string, for which
truthiness coincides with presence.) -/
def request_valid (cfg : Config) (project : String) (size : Option String) :
    Bool :=
  match alist_lookup cfg project with
  | none => false
  | some pc =>
    match size with
    | none => true
    | some s => (alist_lookup pc.dimensions s).isSome

/-- Embedding of _serve_image from src/image_resize_service.py: validate the
project and size against the configuration (NotFound otherwise), then serve
the stored artifact on a hit or generate the variant via _resize_image on a
miss. -/
def serve_image (cfg : Config) (cdc : Codec) (st : Store)
    (project name : String) (size : Option String) (extension : String) :
    Except PyErr Bytes × Store × List Op :=
  if request_valid cfg project size then
    let k : StorageKey := ⟨project, name, extension, size⟩
    if store_exists st k then
      (store_get st k, st, [Op.existsCheck k, Op.readAt k])
    else
      let r := resize_image cfg cdc st project name extension size
      (r.1, r.2.1, Op.existsCheck k :: r.2.2)
  else
    (Except.error PyErr.notFound, st, [])

/-! ## Concrete fixtures used by the witnesses -/

/-- A concrete configuration: the demo project with the single named size
small = (100, 100). -/
def demoConfig : Config := [("demo_project", ⟨[("small", (100, 100))]⟩)]

/-- A concrete deterministic codec: bytes [w, h] decode to a w×h image,
resizing replaces the dimensions, encoding emits [w, h]. -/
def demoCodec : Codec where
  decode bs :=
    match bs with
    | [w, h] => some ⟨w, h, 0⟩
    | _ => none
  resizeTo im wh := ⟨wh.1, wh.2, im.payload⟩
  encode im := [im.width, im.height]

/-- A concrete store holding only the original welcome.jpg, a 200×400
image. -/
def demoStore : Store :=
  [(⟨"demo_project", "welcome", "jpg", none⟩, [200, 400])]

/-- Evaluation of _calc_size on the worked example of the spec: the 200×400
source scaled into the box (100, 100) becomes 50×100. -/
theorem calc_size_demo_eval :
    calc_size (100, 100) (200, 400) = Except.ok (50, 100) := by
  refine calc_size_eval_scaled 100 100 200 400 50 100 (1 / 4)
    (by decide) (by decide) (by decide) ?_ ?_ ?_
  · unfold pyScale
    rw [min_eq_right (by norm_num)]
    norm_num
  · exact truncToZero_eq_of_nonneg (by norm_num) (by norm_num) (by norm_num)
  · exact truncToZero_eq_of_nonneg (by norm_num) (by norm_num) (by norm_num)

/-! ## Orchestrator theorems -/

/-- On success, _resize_image leaves the store extended by exactly the bytes
it returns, stored under the size key. -/
theorem resize_image_ok {cfg : Config} {cdc : Codec} {st : Store}
    {project name extension : String} {size : Option String}
    {b : Bytes} {st1 : Store} {tr : List Op}
    (hres : resize_image cfg cdc st project name extension size =
      (Except.ok b, st1, tr)) :
    st1 = store_save st ⟨project, name, extension, size⟩ b := by
  simp only [resize_image] at hres
  split at hres
  · split at hres
    · simp at hres
    · split at hres
      · simp at hres
      · split at hres
        · simp at hres
        · split at hres
          · simp at hres
          · split at hres
            · simp at hres
            · split at hres
              · simp at hres
              · rw [Prod.mk.injEq, Prod.mk.injEq] at hres
                obtain ⟨hb, hst, htr⟩ := hres
                rw [← hst, Except.ok.injEq] at *
                rw [hb]
  · simp at hres

/-- C1: if a serve call succeeds with bytes b and store st1, the immediately
following serve call for the same request returns byte-identical output, does
not change the store, and its operation trace is exactly an existence check
followed by a read of the stored variant — it re-invokes no codec operation
(cache hit). -/
theorem serve_idempotent (cfg : Config) (cdc : Codec) (st : Store)
    (project name extension : String) (size : Option String)
    (b : Bytes) (st1 : Store) (tr1 : List Op)
    (h1 : serve_image cfg cdc st project name size extension =
      (Except.ok b, st1, tr1)) :
    serve_image cfg cdc st1 project name size extension =
      (Except.ok b, st1,
       [Op.existsCheck ⟨project, name, extension, size⟩,
        Op.readAt ⟨project, name, extension, size⟩]) := by
  simp only [serve_image] at h1 ⊢
  by_cases hv : request_valid cfg project size = true
  · rw [if_pos hv] at h1
    rw [if_pos hv]
    by_cases he : store_exists st ⟨project, name, extension, size⟩ = true
    · rw [if_pos he] at h1
      rw [Prod.mk.injEq, Prod.mk.injEq] at h1
      obtain ⟨hres, hst, htr⟩ := h1
      rw [← hst]
      rw [if_pos he, hres]
    · rw [if_neg he] at h1
      rw [Prod.mk.injEq, Prod.mk.injEq] at h1
      obtain ⟨hres, hst, htr⟩ := h1
      have hr : resize_image cfg cdc st project name extension size =
          (Except.ok b, st1,
           (resize_image cfg cdc st project name extension size).2.2) := by
        rw [← hres, ← hst]
      have hsave := resize_image_ok hr
      subst hsave
      have he2 : store_exists
          (store_save st ⟨project, name, extension, size⟩ b)
          ⟨project, name, extension, size⟩ = true := by
        unfold store_exists
        rw [store_lookup_save_self]
        rfl
      rw [if_pos he2]
      have hg : store_get (store_save st ⟨project, name, extension, size⟩ b)
          ⟨project, name, extension, size⟩ = Except.ok b := by
        unfold store_get
        rw [store_lookup_save_self]
      rw [hg]
  · rw [if_neg hv] at h1
    simp at h1

/-- C6: for an unknown project, or a size not configured for the project,
_serve_image fails with NotFound, leaves the store unchanged, and performs no
storage operation at all (empty operation trace). -/
theorem serve_unknown_not_found (cfg : Config) (cdc : Codec) (st : Store)
    (project name extension : String) (size : Option String)
    (hbad : alist_lookup cfg project = none ∨
      ∃ s pc, size = some s ∧ alist_lookup cfg project = some pc ∧
        alist_lookup pc.dimensions s = none) :
    serve_image cfg cdc st project name size extension =
      (Except.error PyErr.notFound, st, []) := by
  have hv : ¬(request_valid cfg project size = true) := by
    rcases hbad with hnone | ⟨s, pc, hsz, hpc, hdim⟩
    · simp [request_valid, hnone]
    · subst hsz
      simp [request_valid, hpc, hdim]
  unfold serve_image
  rw [if_neg hv]

/-- Witness for serve_unknown_not_found: a request for an unknown project
fails with NotFound without touching the store. -/
theorem serve_unknown_not_found_witness :
    serve_image demoConfig demoCodec demoStore "nope" "welcome" (some "small")
      "jpg" = (Except.error PyErr.notFound, demoStore, []) :=
  serve_unknown_not_found demoConfig demoCodec demoStore "nope" "welcome"
    "jpg" (some "small") (Or.inl (by decide))

/-- C7: for a known project and configured size, when neither the named-size
variant nor the original exists, _serve_image fails with NotFound; the store
is unchanged and the trace holds only the two existence checks — nothing is
decoded, resized or written. -/
theorem serve_missing_original_not_found (cfg : Config) (cdc : Codec)
    (st : Store) (project name extension s : String) (pc : ProjectConfig)
    (box : ℤ × ℤ)
    (hpc : alist_lookup cfg project = some pc)
    (hdim : alist_lookup pc.dimensions s = some box)
    (hvar : store_lookup st ⟨project, name, extension, some s⟩ = none)
    (horig : store_lookup st ⟨project, name, extension, none⟩ = none) :
    serve_image cfg cdc st project name (some s) extension =
      (Except.error PyErr.notFound, st,
       [Op.existsCheck ⟨project, name, extension, some s⟩,
        Op.existsCheck ⟨project, name, extension, none⟩]) := by
  have hv : request_valid cfg project (some s) = true := by
    simp [request_valid, hpc, hdim]
  have hr : resize_image cfg cdc st project name extension (some s) =
      (Except.error PyErr.notFound, st,
       [Op.existsCheck ⟨project, name, extension, none⟩]) := by
    simp only [resize_image]
    rw [if_neg (by simp [store_exists, horig])]
  unfold serve_image
  rw [if_pos hv, if_neg (by simp [store_exists, hvar]), hr]

/-- Witness for serve_missing_original_not_found on the empty store. -/
theorem serve_missing_original_witness :
    serve_image demoConfig demoCodec [] "demo_project" "welcome"
      (some "small") "jpg" =
      (Except.error PyErr.notFound, ([] : Store),
       [Op.existsCheck ⟨"demo_project", "welcome", "jpg", some "small"⟩,
        Op.existsCheck ⟨"demo_project", "welcome", "jpg", none⟩]) :=
  serve_missing_original_not_found demoConfig demoCodec [] "demo_project"
    "welcome" "jpg" "small" ⟨[("small", (100, 100))]⟩ (100, 100)
    (by decide) (by decide) (by decide) (by decide)

/-- Evaluation of the first serve call on the demo data: a cache miss that
decodes the 200×400 original, stores the 50×100 variant and returns its
encoding. -/
theorem serve_demo_first :
    serve_image demoConfig demoCodec demoStore "demo_project" "welcome"
      (some "small") "jpg" =
      (Except.ok [50, 100],
       store_save demoStore
         ⟨"demo_project", "welcome", "jpg", some "small"⟩ [50, 100],
       [Op.existsCheck ⟨"demo_project", "welcome", "jpg", some "small"⟩,
        Op.existsCheck ⟨"demo_project", "welcome", "jpg", none⟩,
        Op.readAt ⟨"demo_project", "welcome", "jpg", none⟩,
        Op.codecDecode, Op.codecResize, Op.codecEncode,
        Op.writeAt ⟨"demo_project", "welcome", "jpg", some "small"⟩,
        Op.codecEncode]) := by
  simp only [serve_image, resize_image, request_valid, demoConfig, demoCodec,
    demoStore, alist_lookup, store_exists, store_lookup, store_get,
    store_save]
  simp [alist_lookup, calc_size_demo_eval]

/-- Witness for serve_idempotent: the second serve call on the demo data
returns the same 50×100 bytes from the cache with only an existence check and
a read. -/
theorem serve_idempotent_witness :
    serve_image demoConfig demoCodec
      (store_save demoStore
        ⟨"demo_project", "welcome", "jpg", some "small"⟩ [50, 100])
      "demo_project" "welcome" (some "small") "jpg" =
      (Except.ok [50, 100],
       store_save demoStore
         ⟨"demo_project", "welcome", "jpg", some "small"⟩ [50, 100],
       [Op.existsCheck ⟨"demo_project", "welcome", "jpg", some "small"⟩,
        Op.readAt ⟨"demo_project", "welcome", "jpg", some "small"⟩]) :=
  serve_idempotent demoConfig demoCodec demoStore "demo_project" "welcome"
    "jpg" (some "small") [50, 100] _ _ serve_demo_first

/-! ## VariantStore write and read-handle contracts -/

/-- C8: writing to an existing key replaces the artifact entirely — a read
after a write returns exactly the newest bytes, and two writes to the same
key are last-write-wins. -/
theorem store_write_last_wins (st : Store) (k : StorageKey) (d1 d2 : Bytes) :
    store_get (store_save st k d1) k = Except.ok d1 ∧
    store_get (store_save (store_save st k d1) k d2) k = Except.ok d2 := by
  constructor
  · unfold store_get
    rw [store_lookup_save_self]
  · unfold store_get
    rw [store_lookup_save_self]

/-- Modelled from the spec and test_image_fd_is_readonly of
FSStorageTestCase: the handle returned by the filesystem backend's get is a
file opened read-only, so a write through it raises IOError (the Immutable
error of the spec) and changes neither the store nor the handle contents.
The components are the outcome, the store afterwards, and the handle
contents afterwards. -/
def fs_handle_write (st : Store) (handle : Bytes) (d : Bytes) :
    Except PyErr Unit × Store × Bytes :=
  (Except.error PyErr.immutable, st, handle)

/-- Modelled from the spec and the datastore override of
test_image_fd_is_readonly: the datastore backend's get returns an io.BytesIO
copy of the artifact, so a write through the handle succeeds and replaces the
copy, while the store itself is never touched. -/
def ds_handle_write (st : Store) (handle : Bytes) (d : Bytes) :
    Except PyErr Unit × Store × Bytes :=
  (Except.ok (), st, d)

/-- C9 counterexample: on the datastore backend, a write through the handle
obtained for the stored welcome original succeeds — it does not fail with the
Immutable error the claim requires of both backends. -/
theorem read_handle_write_cex :
    (ds_handle_write demoStore [200, 400] [9]).1 = Except.ok () ∧
    (Except.ok () : Except PyErr Unit) ≠ Except.error PyErr.immutable := by
  constructor
  · rfl
  · intro hcontra
    exact Except.noConfusion hcontra

/-- C9 (amended): neither backend lets a write through a read handle reach
the stored artifact. The filesystem backend rejects the write with the
Immutable error and leaves the handle unchanged; the datastore backend
accepts the write into the in-memory copy but leaves the store unchanged. -/
theorem read_handle_write_never_mutates (st : Store) (handle d : Bytes) :
    fs_handle_write st handle d = (Except.error PyErr.immutable, st, handle) ∧
    (ds_handle_write st handle d).2.1 = st :=
  ⟨rfl, rfl⟩

end ImageResize
